import Mathlib

/-!
Verification development for the PDF_parser repository.

The definitions below are a shallow embedding of the function process_pdf
from example/pdf_parser_final.ipynb and of the GroqPDFQuery class from
utils/groq_integration, parameterized over the behaviour of the external
providers (fitz, pdfplumber, pdf2image, pytesseract, pandas, llama_index).
Provider calls that can raise a Python exception are modelled as Except
values; exception propagation in the Python code becomes explicit error
propagation in the matches below.
-/

deriving instance DecidableEq for Except

namespace Notebook


/-- A table cell as returned by the pdfplumber table-detection provider:
none models Python None, and also the pandas NaN used for padding. -/
abbrev Cell := Option String

/-- A detected table grid: a list of rows, each row a list of cells. -/
abbrev Grid := List (List Cell)

/-- Behaviour of one pdfplumber page object during the run: the outcomes of
its extract_text and extract_tables calls. -/
structure PlumberPage where
  extract_text : Except String String
  extract_tables : Except String (List Grid)

/-- Behaviour of every external provider call made by process_pdf on one
input path. Images from pdf2image are modelled as opaque Nat handles. -/
structure Env where
  fitz_open : Except String (List (String × String))
  pdfplumber_open : Except String (List PlumberPage)
  convert_from_path : Except String (List Nat)
  save : Nat → Except String Unit
  image_to_string : Nat → Except String String

/-- One entry of the tables stream: the dict
with page, table_num and the pandas DataFrame (kept as columns plus rows). -/
structure TableEntry where
  page : Nat
  table_num : Nat
  header : List Cell
  rows : List (List Cell)
deriving DecidableEq

/-- The results dictionary built by process_pdf. -/
structure Results where
  metadata : List (String × String)
  text : List String
  tables : List TableEntry
  images : List Nat
  ocr_text : List String
deriving DecidableEq

/-- The separator line of 50 equality signs used in the formatted strings. -/
def sepLine : String := String.mk (List.replicate 50 '=')

/-- Format of one entry of the text stream (page_num is 0-based here, the
printed page number is page_num + 1). -/
def formatText (pn : Nat) (t : String) : String :=
  "Page " ++ toString (pn + 1) ++ " Text:\n" ++ t ++ "\n" ++ sepLine

/-- Format of one entry of the ocr_text stream. -/
def formatOcr (inum : Nat) (t : String) : String :=
  "Image " ++ toString (inum + 1) ++ " OCR Text:\n" ++ t ++ "\n" ++ sepLine

/-- The widest row of a list of rows (0 when there are no rows). -/
def maxWidth (data : List (List Cell)) : Nat :=
  data.foldr (fun r acc => max r.length acc) 0

/-- Model of pandas pd.DataFrame(data, columns=columns) on a list of row
lists: with non-empty data, construction raises ValueError when the inferred
column count (the widest row) differs from the number of column labels, and
otherwise pads shorter rows at the end with NaN (modelled as none). Empty
data gives an empty frame with the given columns. -/
def pdDataFrame (data : List (List Cell)) (columns : List Cell) :
    Except String (List Cell × List (List Cell)) :=
  if data.isEmpty then .ok (columns, [])
  else if maxWidth data = columns.length then
    .ok (columns,
      data.map (fun r => r ++ List.replicate (columns.length - r.length) (none : Cell)))
  else .error "ValueError: columns passed, passed data had different columns"

/-- The inner loop over enumerate(tables) for the page with 0-based number
pn: each detected grid becomes one TableEntry via
pd.DataFrame(table[1:], columns=table[0]). Python table[0] on an empty grid
raises IndexError. Any raise propagates. -/
def buildTables (pn : Nat) : Nat → List Grid → Except String (List TableEntry)
  | _, [] => .ok []
  | _, [] :: _ => .error "IndexError: list index out of range"
  | tn, (hd :: tl) :: gs =>
    match pdDataFrame tl hd with
    | .error e => .error e
    | .ok (cols, rows) =>
      match buildTables pn (tn + 1) gs with
      | .error e => .error e
      | .ok rest =>
        .ok ({ page := pn + 1, table_num := tn + 1, header := cols, rows := rows } :: rest)

/-- The per-page loop of process_pdf over pdf.pages: text extraction first
(the formatted text is appended only when the extracted text is truthy,
that is non-empty), then table extraction. Any exception raised by a
provider call propagates and aborts the whole run. -/
def processPages : Nat → List PlumberPage → Except String (List String × List TableEntry)
  | _, [] => .ok ([], [])
  | pn, p :: ps =>
    match p.extract_text with
    | .error e => .error e
    | .ok t =>
      match p.extract_tables with
      | .error e => .error e
      | .ok gs =>
        match buildTables pn 0 gs with
        | .error e => .error e
        | .ok tbs =>
          match processPages (pn + 1) ps with
          | .error e => .error e
          | .ok (ts, rest) =>
            .ok ((if t.isEmpty then [] else [formatText pn t]) ++ ts, tbs ++ rest)

/-- The whitespace set of Python str.strip. -/
def pyIsSpace (c : Char) : Bool :=
  c == ' ' || c == '\t' || c == '\n' || c == '\x0d' || c == '\x0b' || c == '\x0c'

/-- Python str.strip: removes leading and trailing whitespace. -/
def pyStrip (s : String) : String :=
  String.mk (((s.data.dropWhile pyIsSpace).reverse.dropWhile pyIsSpace).reverse)

/-- The image loop of process_pdf over convert_from_path output: each image
is saved to a byte buffer, OCR is run on it, the formatted OCR text is
appended only when the stripped text is truthy (non-blank), and every image
is appended to the images stream. Any raise propagates. -/
def processImages (env : Env) : Nat → List Nat → Except String (List String × List Nat)
  | _, [] => .ok ([], [])
  | inum, img :: imgs =>
    match env.save img with
    | .error e => .error e
    | .ok _ =>
      match env.image_to_string img with
      | .error e => .error e
      | .ok t =>
        match processImages env (inum + 1) imgs with
        | .error e => .error e
        | .ok (os, is) =>
          .ok ((if (pyStrip t).isEmpty then [] else [formatOcr inum t]) ++ os, img :: is)

/-- Embedding of process_pdf from example/pdf_parser_final.ipynb: open with
fitz for metadata, loop over pdfplumber pages for text and tables, then
convert_from_path and the image/OCR loop. Every uncaught provider exception
aborts the run with no result. -/
def process_pdf (env : Env) : Except String Results :=
  match env.fitz_open with
  | .error e => .error e
  | .ok md =>
    match env.pdfplumber_open with
    | .error e => .error e
    | .ok pages =>
      match processPages 0 pages with
      | .error e => .error e
      | .ok (text, tables) =>
        match env.convert_from_path with
        | .error e => .error e
        | .ok images =>
          match processImages env 0 images with
          | .error e => .error e
          | .ok (ocr, imgs) =>
            .ok { metadata := md, text := text, tables := tables,
                  images := imgs, ocr_text := ocr }

/-- Specification-side description of the text stream: the formatted text of
exactly those pages whose successful extract_text call returned non-empty
text, in page order (pages whose call failed contribute a junk value that is
unreachable when the run succeeded). -/
def collectTexts : Nat → List PlumberPage → List String
  | _, [] => []
  | pn, p :: ps =>
    (match p.extract_text with
     | .ok t => if t.isEmpty then [] else [formatText pn t]
     | .error _ => []) ++ collectTexts (pn + 1) ps

/-- Specification-side description of the tables stream on a successful run:
per page, the entries built by buildTables from the detected grids. -/
def collectTables : Nat → List PlumberPage → List TableEntry
  | _, [] => []
  | pn, p :: ps =>
    (match p.extract_tables with
     | .ok gs =>
       match buildTables pn 0 gs with
       | .ok l => l
       | .error _ => []
     | .error _ => []) ++ collectTables (pn + 1) ps

/-- Specification-side description of the ocr_text stream on a successful
run: the formatted OCR text of exactly those images whose recognized text is
non-blank after stripping, in image order. -/
def collectOcr (env : Env) : Nat → List Nat → List String
  | _, [] => []
  | inum, img :: imgs =>
    (match env.image_to_string img with
     | .ok t => if (pyStrip t).isEmpty then [] else [formatOcr inum t]
     | .error _ => []) ++ collectOcr env (inum + 1) imgs

/-- The padding the specification text asks for: short rows padded to the
header length with EMPTY STRINGS (not with null cells). -/
def specPadEmpty (row : List Cell) (n : Nat) : List Cell :=
  row ++ List.replicate (n - row.length) (some "")

/-- A grid is rectangular when it has a first row and every other row has
the same length as the first row. -/
def gridRect : Grid → Bool
  | [] => false
  | hd :: tl => tl.all (fun r => r.length == hd.length)

/-- Expected table entries for rectangular grids: first row of the detected
grid is the header, the remaining rows are the data rows, tagged with the
1-based page number and a 1-based per-page table index in detection order. -/
def tablesFromGrids (pn : Nat) : Nat → List Grid → List TableEntry
  | _, [] => []
  | tn, g :: gs =>
    { page := pn + 1, table_num := tn + 1, header := g.headD [], rows := g.tail }
      :: tablesFromGrids pn (tn + 1) gs

/-- Per-page expected tables stream for rectangular grids. -/
def collectTablesRect : Nat → List PlumberPage → List TableEntry
  | _, [] => []
  | pn, p :: ps =>
    (match p.extract_tables with
     | .ok gs => tablesFromGrids pn 0 gs
     | .error _ => []) ++ collectTablesRect (pn + 1) ps

/-- A page whose text extraction returns the empty string, with no tables. -/
def pageEmptyText : PlumberPage := ⟨.ok "", .ok []⟩

/-- A page whose text extraction returns the text hi, with no tables. -/
def pageHi : PlumberPage := ⟨.ok "hi", .ok []⟩

/-- A page whose text extraction raises. -/
def pageTextErr : PlumberPage := ⟨.error "text boom", .ok []⟩

/-- A page whose table detection raises. -/
def pageTablesErr : PlumberPage := ⟨.ok "b", .error "detect boom"⟩

/-- A page with one detected ragged grid: header of width 2, one short data
row and one full data row. -/
def pagePadTable : PlumberPage :=
  ⟨.ok "", .ok [[[some "h1", some "h2"], [some "a"], [some "b", some "c"]]]⟩

/-- First rectangular grid: header plus two full rows (one cell blank). -/
def gridOne : Grid := [[some "h1", some "h2"], [some "a", none], [some "b", some "c"]]

/-- Second rectangular grid: one header cell and one data row. -/
def gridTwo : Grid := [[some "x"], [some "y"]]

/-- A page with two detected rectangular grids. -/
def pageRect : PlumberPage := ⟨.ok "hi", .ok [gridOne, gridTwo]⟩

/-- Environment with one blank page and no images. -/
def envC1a : Env := ⟨.ok [], .ok [pageEmptyText], .ok [], fun _ => .ok (), fun _ => .ok ""⟩

/-- Environment whose first page raises on text extraction. -/
def envC1b : Env := ⟨.ok [], .ok [pageTextErr, pageHi], .ok [], fun _ => .ok (), fun _ => .ok ""⟩

/-- Environment with one page carrying one ragged table. -/
def envC2 : Env := ⟨.ok [], .ok [pagePadTable], .ok [], fun _ => .ok (), fun _ => .ok ""⟩

/-- Environment with a table page followed by a page with zero tables. -/
def envC2W : Env :=
  ⟨.ok [], .ok [pagePadTable, pageEmptyText], .ok [], fun _ => .ok (), fun _ => .ok ""⟩

/-- Environment whose second page raises on table detection. -/
def envC3 : Env := ⟨.ok [], .ok [pageHi, pageTablesErr], .ok [], fun _ => .ok (), fun _ => .ok ""⟩

/-- Environment where the OCR engine call raises (engine unavailable). -/
def envC4 : Env :=
  ⟨.ok [], .ok [pageHi], .ok [0], fun _ => .ok (), fun _ => .error "TesseractNotFoundError"⟩

/-- Environment where the batch page rendering call raises. -/
def envC5 : Env :=
  ⟨.ok [], .ok [pageHi], .error "PDFInfoNotInstalledError", fun _ => .ok (), fun _ => .ok ""⟩

/-- Environment with one rendered image whose recognized text is empty. -/
def envC6 : Env := ⟨.ok [], .ok [pageHi], .ok [0], fun _ => .ok (), fun _ => .ok ""⟩

/-- Environment for a document that cannot be opened. -/
def envC7 : Env :=
  ⟨.error "cannot open broken document", .ok [], .ok [], fun _ => .ok (), fun _ => .ok ""⟩

/-- Environment with one page carrying two rectangular grids. -/
def envC8 : Env := ⟨.ok [], .ok [pageRect], .ok [0], fun _ => .ok (), fun _ => .ok "ocr"⟩

end Notebook

namespace GroqIntegration


/-- State of one GroqPDFQuery object: only the index field matters for the
control flow; the llm and embed_model provider objects are opaque. A built
vector index is modelled as an opaque Nat handle. -/
structure GroqPDFQuery where
  index : Option Nat
deriving DecidableEq

/-- The constructor: reads GROQ_API_KEY from the environment (None when the
variable is absent); a falsy value (absent or empty) raises ValueError;
otherwise the provider objects and global Settings are set up and the index
field is initialized to None. -/
def init (apiKey : Option String) : Except String GroqPDFQuery :=
  match apiKey with
  | none => .error "GROQ_API_KEY not found in environment variables"
  | some k =>
    if k.isEmpty then .error "GROQ_API_KEY not found in environment variables"
    else .ok { index := none }

/-- create_index: loads the documents of the directory and builds a vector
index over their nodes; on success the index field is assigned, on any
provider exception the error is logged and re-raised, leaving the object
state unchanged. The outcome of the provider pipeline is a parameter; the
method returns the new object state and the optional raised error. -/
def create_index (s : GroqPDFQuery) (loaded : Except String Nat) :
    GroqPDFQuery × Option String :=
  match loaded with
  | .ok idx => ({ index := some idx }, none)
  | .error e => (s, some e)

/-- query: raises ValueError when the index field is falsy (unset),
otherwise builds a query engine from the index and runs the question
through it (the engine behaviour is a parameter). -/
def query (s : GroqPDFQuery) (engine : Nat → String → Except String String)
    (question : String) : Except String String :=
  match s.index with
  | none => .error "Index not created. Call create_index() first."
  | some idx => engine idx question

/-- The object state after a sequence of create_index calls with the given
provider outcomes. -/
def runCreates (s : GroqPDFQuery) (attempts : List (Except String Nat)) : GroqPDFQuery :=
  attempts.foldl (fun st a => (create_index st a).1) s

end GroqIntegration

namespace Notebook

/-- Every row of a list of rows is at most as long as the widest row. -/
theorem maxWidth_le {data : List (List Cell)} {r : List Cell} (h : r ∈ data) :
    r.length ≤ maxWidth data := by
  induction data with
  | nil => cases h
  | cons a l ih =>
    rcases List.mem_cons.mp h with rfl | h
    · exact Nat.le_max_left _ _
    · exact (ih h).trans (Nat.le_max_right _ _)

/-- On a non-empty list of rows of one common length, the widest row has
that length. -/
theorem maxWidth_uniform {data : List (List Cell)} {n : Nat}
    (h : ∀ r ∈ data, r.length = n) (hne : data ≠ []) : maxWidth data = n := by
  induction data with
  | nil => exact absurd rfl hne
  | cons a l ih =>
    have ha : a.length = n := h a (List.mem_cons_self _ _)
    by_cases hl : l = []
    · subst hl
      simp [maxWidth, ha]
    · have : maxWidth l = n := ih (fun r hr => h r (List.mem_cons_of_mem _ hr)) hl
      simp [maxWidth] at this ⊢
      simp [ha, this]

/-- A successful DataFrame construction keeps the column labels and gives
every stored row the length of the column list. -/
theorem pdDataFrame_ok {data : List (List Cell)} {cols c : List Cell}
    {rows : List (List Cell)} (h : pdDataFrame data cols = .ok (c, rows)) :
    c = cols ∧ ∀ r ∈ rows, r.length = cols.length := by
  unfold pdDataFrame at h
  split at h
  · injection h with h
    injection h with h1 h2
    subst h1; subst h2
    exact ⟨rfl, by intro r hr; cases hr⟩
  · split at h
    · next hempty hw =>
      injection h with h
      injection h with h1 h2
      subst h1; subst h2
      refine ⟨rfl, ?_⟩
      intro r hr
      rcases List.mem_map.mp hr with ⟨s, hs, rfl⟩
      have hle : s.length ≤ cols.length := hw ▸ maxWidth_le hs
      simp [Nat.add_sub_cancel' hle]
    · cases h

/-- On data rows that all already have the column-list length, DataFrame
construction succeeds and stores the rows unchanged. -/
theorem pdDataFrame_rect {data : List (List Cell)} {cols : List Cell}
    (h : ∀ r ∈ data, r.length = cols.length) :
    pdDataFrame data cols = .ok (cols, data) := by
  unfold pdDataFrame
  split
  · next hempty =>
    rw [List.isEmpty_iff] at hempty
    subst hempty
    rfl
  · next hempty =>
    rw [List.isEmpty_iff] at hempty
    rw [if_pos (maxWidth_uniform h hempty)]
    have hmap : data.map
        (fun r => r ++ List.replicate (cols.length - r.length) (none : Cell)) = data := by
      conv_rhs => rw [← List.map_id data]
      apply List.map_congr_left
      intro r hr
      simp [h r hr]
    rw [hmap]

/-- Every entry built for one page carries the 1-based number of that page
and only rows of the header length. -/
theorem buildTables_mem {pn : Nat} : ∀ {tn : Nat} {gs : List Grid} {l : List TableEntry},
    buildTables pn tn gs = .ok l →
    ∀ te ∈ l, te.page = pn + 1 ∧ ∀ row ∈ te.rows, row.length = te.header.length := by
  intro tn gs
  induction gs generalizing tn with
  | nil =>
    intro l h te hte
    simp only [buildTables] at h
    injection h with h
    subst h
    cases hte
  | cons g gs ih =>
    intro l h te hte
    match g with
    | [] =>
      simp only [buildTables] at h
      cases h
    | hd :: tl =>
      simp only [buildTables] at h
      cases hpd : pdDataFrame tl hd with
      | error e => rw [hpd] at h; cases h
      | ok pr =>
        rw [hpd] at h
        cases hbt : buildTables pn (tn + 1) gs with
        | error e => rw [hbt] at h; cases h
        | ok rest =>
          rw [hbt] at h
          injection h with h
          subst h
          rcases List.mem_cons.mp hte with rfl | hmem
          · obtain ⟨hc, hr⟩ := pdDataFrame_ok (show pdDataFrame tl hd = .ok (pr.1, pr.2) by rw [hpd])
            exact ⟨rfl, by simpa [hc] using hr⟩
          · exact ih hbt te hmem

/-- On rectangular grids, buildTables succeeds and produces exactly the
entries of tablesFromGrids: first row as header, remaining rows as data. -/
theorem buildTables_rect {pn : Nat} : ∀ {tn : Nat} {gs : List Grid},
    (∀ g ∈ gs, gridRect g = true) →
    buildTables pn tn gs = .ok (tablesFromGrids pn tn gs) := by
  intro tn gs
  induction gs generalizing tn with
  | nil => intro _; rfl
  | cons g gs ih =>
    intro hrect
    match g with
    | [] => simpa [gridRect] using hrect [] (List.mem_cons_self _ _)
    | hd :: tl =>
      have hall : ∀ r ∈ tl, r.length = hd.length := by
        have := hrect (hd :: tl) (List.mem_cons_self _ _)
        simp only [gridRect, List.all_eq_true] at this
        intro r hr
        exact Nat.beq_eq ▸ (by simpa using this r hr)
      simp only [buildTables]
      rw [pdDataFrame_rect hall]
      rw [ih (fun g hg => hrect g (List.mem_cons_of_mem _ hg))]
      rfl

/-- A successful per-page loop yields exactly the collected text and table
streams. -/
theorem processPages_ok : ∀ {pn : Nat} {ps : List PlumberPage}
    {x : List String × List TableEntry},
    processPages pn ps = .ok x → x = (collectTexts pn ps, collectTables pn ps) := by
  intro pn ps
  induction ps generalizing pn with
  | nil =>
    intro x h
    simp only [processPages] at h
    injection h with h
    simp [h.symm, collectTexts, collectTables]
  | cons p ps ih =>
    intro x h
    cases hpt : p.extract_text with
    | error e => simp only [processPages, hpt] at h; cases h
    | ok t =>
      cases hgs : p.extract_tables with
      | error e => simp only [processPages, hpt, hgs] at h; cases h
      | ok gs =>
        cases hbt : buildTables pn 0 gs with
        | error e => simp only [processPages, hpt, hgs, hbt] at h; cases h
        | ok tbs =>
          cases hrec : processPages (pn + 1) ps with
          | error e => simp only [processPages, hpt, hgs, hbt, hrec] at h; cases h
          | ok y =>
            obtain ⟨ts, rest⟩ := y
            simp only [processPages, hpt, hgs, hbt, hrec] at h
            have hy := ih hrec
            injection hy with hy1 hy2
            subst hy1
            subst hy2
            simp only [collectTexts, collectTables, hpt, hgs, hbt]
            injection h with h
            exact h.symm

/-- A successful image loop yields exactly the collected OCR stream and
stores every image. -/
theorem processImages_ok {env : Env} : ∀ {inum : Nat} {imgs : List Nat}
    {x : List String × List Nat},
    processImages env inum imgs = .ok x → x = (collectOcr env inum imgs, imgs) := by
  intro inum imgs
  induction imgs generalizing inum with
  | nil =>
    intro x h
    simp only [processImages] at h
    injection h with h
    simp [h.symm, collectOcr]
  | cons img imgs ih =>
    intro x h
    cases hs : env.save img with
    | error e => simp only [processImages, hs] at h; cases h
    | ok u =>
      cases ho : env.image_to_string img with
      | error e => simp only [processImages, hs, ho] at h; cases h
      | ok t =>
        cases hrec : processImages env (inum + 1) imgs with
        | error e => simp only [processImages, hs, ho, hrec] at h; cases h
        | ok y =>
          obtain ⟨os, is⟩ := y
          simp only [processImages, hs, ho, hrec] at h
          have hy := ih hrec
          injection hy with hy1 hy2
          subst hy1
          subst hy2
          simp only [collectOcr, ho]
          injection h with h
          exact h.symm

/-- If the pages before p are processed successfully and the extract_text
call of p raises, the whole per-page loop raises that error. -/
theorem processPages_append_err_text : ∀ {pn : Nat} {ps₁ : List PlumberPage}
    {x : List String × List TableEntry} {p : PlumberPage} {ps₂ : List PlumberPage}
    {e : String},
    processPages pn ps₁ = .ok x → p.extract_text = .error e →
    processPages pn (ps₁ ++ p :: ps₂) = .error e := by
  intro pn ps₁
  induction ps₁ generalizing pn with
  | nil =>
    intro x p ps₂ e _ hpt
    simp only [List.nil_append, processPages, hpt]
  | cons q qs ih =>
    intro x p ps₂ e h hpt
    cases hqt : q.extract_text with
    | error e1 => simp only [processPages, hqt] at h; cases h
    | ok t =>
      cases hqs : q.extract_tables with
      | error e1 => simp only [processPages, hqt, hqs] at h; cases h
      | ok gs =>
        cases hbt : buildTables pn 0 gs with
        | error e1 => simp only [processPages, hqt, hqs, hbt] at h; cases h
        | ok tbs =>
          cases hrec : processPages (pn + 1) qs with
          | error e1 => simp only [processPages, hqt, hqs, hbt, hrec] at h; cases h
          | ok y =>
            have hrw : processPages (pn + 1) (qs ++ p :: ps₂) = Except.error e := ih hrec hpt
            show processPages pn (q :: (qs ++ p :: ps₂)) = Except.error e
            simp only [processPages, hqt, hqs, hbt, hrw]

/-- If the pages before p are processed successfully, the extract_text call
of p succeeds but its extract_tables call raises, the whole per-page loop
raises that error. -/
theorem processPages_append_err_tables : ∀ {pn : Nat} {ps₁ : List PlumberPage}
    {x : List String × List TableEntry} {p : PlumberPage} {ps₂ : List PlumberPage}
    {t e : String},
    processPages pn ps₁ = .ok x → p.extract_text = .ok t →
    p.extract_tables = .error e →
    processPages pn (ps₁ ++ p :: ps₂) = .error e := by
  intro pn ps₁
  induction ps₁ generalizing pn with
  | nil =>
    intro x p ps₂ t e _ hpt hptb
    simp only [List.nil_append, processPages, hpt, hptb]
  | cons q qs ih =>
    intro x p ps₂ t e h hpt hptb
    cases hqt : q.extract_text with
    | error e1 => simp only [processPages, hqt] at h; cases h
    | ok t1 =>
      cases hqs : q.extract_tables with
      | error e1 => simp only [processPages, hqt, hqs] at h; cases h
      | ok gs =>
        cases hbt : buildTables pn 0 gs with
        | error e1 => simp only [processPages, hqt, hqs, hbt] at h; cases h
        | ok tbs =>
          cases hrec : processPages (pn + 1) qs with
          | error e1 => simp only [processPages, hqt, hqs, hbt, hrec] at h; cases h
          | ok y =>
            have hrw : processPages (pn + 1) (qs ++ p :: ps₂) = Except.error e := ih hrec hpt hptb
            show processPages pn (q :: (qs ++ p :: ps₂)) = Except.error e
            simp only [processPages, hqt, hqs, hbt, hrw]

/-- If the images before img are processed successfully, the save call of
img succeeds but the OCR call on img raises, the whole image loop raises
that error. -/
theorem processImages_append_err {env : Env} : ∀ {inum : Nat} {i₁ : List Nat}
    {x : List String × List Nat} {img : Nat} {i₂ : List Nat} {e : String},
    processImages env inum i₁ = .ok x → env.save img = .ok () →
    env.image_to_string img = .error e →
    processImages env inum (i₁ ++ img :: i₂) = .error e := by
  intro inum i₁
  induction i₁ generalizing inum with
  | nil =>
    intro x img i₂ e _ hsv ho
    simp only [List.nil_append, processImages, hsv, ho]
  | cons j js ih =>
    intro x img i₂ e h hsv ho
    cases hjs : env.save j with
    | error e1 => simp only [processImages, hjs] at h; cases h
    | ok u =>
      cases hjo : env.image_to_string j with
      | error e1 => simp only [processImages, hjs, hjo] at h; cases h
      | ok t =>
        cases hrec : processImages env (inum + 1) js with
        | error e1 => simp only [processImages, hjs, hjo, hrec] at h; cases h
        | ok y =>
          have hrw : processImages env (inum + 1) (js ++ img :: i₂) = Except.error e := ih hrec hsv ho
          show processImages env inum (j :: (js ++ img :: i₂)) = Except.error e
          simp only [processImages, hjs, hjo, hrw]

/-- Every entry of the collected tables stream originates from the grids
detected on exactly one page: the page whose 1-based number it carries. -/
theorem collectTables_mem : ∀ {pn : Nat} {ps : List PlumberPage} {te : TableEntry},
    te ∈ collectTables pn ps →
    ∃ j, ∃ hj : j < ps.length, te.page = pn + j + 1 ∧
      ∃ gs l, (ps.get ⟨j, hj⟩).extract_tables = .ok gs ∧
        buildTables (pn + j) 0 gs = .ok l ∧ te ∈ l := by
  intro pn ps
  induction ps generalizing pn with
  | nil =>
    intro te h
    simp [collectTables] at h
  | cons p ps ih =>
    intro te h
    simp only [collectTables] at h
    rcases List.mem_append.mp h with hl | hr
    · cases hgs : p.extract_tables with
      | error e =>
        simp only [hgs] at hl
        cases hl
      | ok gs =>
        simp only [hgs] at hl
        cases hbt : buildTables pn 0 gs with
        | error e =>
          simp only [hbt] at hl
          cases hl
        | ok l =>
          simp only [hbt] at hl
          refine ⟨0, by simp, ?_, gs, l, by simpa using hgs, by simpa using hbt, hl⟩
          have := (buildTables_mem hbt te hl).1
          omega
    · obtain ⟨j, hj, hpage, gs, l, hgs, hbt, hmem⟩ := ih hr
      refine ⟨j + 1, by simpa using Nat.succ_lt_succ hj, by omega, gs, l, ?_, ?_, hmem⟩
      · simpa using hgs
      · have : pn + 1 + j = pn + (j + 1) := by omega
        rw [← this]
        exact hbt

/-- The collected OCR stream never has more entries than there are images. -/
theorem collectOcr_length_le {env : Env} : ∀ {inum : Nat} {imgs : List Nat},
    (collectOcr env inum imgs).length ≤ imgs.length := by
  intro inum imgs
  induction imgs generalizing inum with
  | nil => simp [collectOcr]
  | cons img imgs ih =>
    simp only [collectOcr, List.length_append, List.length_cons]
    have h1 : (match env.image_to_string img with
        | .ok t => if (pyStrip t).isEmpty then [] else [formatOcr inum t]
        | .error _ => ([] : List String)).length ≤ 1 := by
      cases env.image_to_string img with
      | error e => simp
      | ok t =>
        by_cases ht : (pyStrip t).isEmpty <;> simp [ht]
    calc _ ≤ 1 + (collectOcr env (inum + 1) imgs).length := by
            exact Nat.add_le_add_right h1 _
      _ ≤ imgs.length + 1 := by
            have h2 : (collectOcr env (inum + 1) imgs).length ≤ imgs.length := ih
            omega

/-- When every detected grid is rectangular, the collected tables stream is
exactly the per-page expected stream. -/
theorem collectTables_eq_rect : ∀ {pn : Nat} {ps : List PlumberPage},
    (∀ p ∈ ps, ∀ gs, p.extract_tables = .ok gs → ∀ g ∈ gs, gridRect g = true) →
    collectTables pn ps = collectTablesRect pn ps := by
  intro pn ps
  induction ps generalizing pn with
  | nil => intro _; rfl
  | cons p ps ih =>
    intro hrect
    simp only [collectTables, collectTablesRect]
    congr 1
    · cases hgs : p.extract_tables with
      | error e => rfl
      | ok gs =>
        show (match buildTables pn 0 gs with
              | .ok l => l
              | .error _ => ([] : List TableEntry)) = tablesFromGrids pn 0 gs
        rw [buildTables_rect (hrect p (List.mem_cons_self _ _) gs hgs)]
    · exact ih fun q hq => hrect q (List.mem_cons_of_mem _ hq)

/-- Characterization of every successful run of process_pdf: all provider
opens succeeded and the five streams are exactly the collected ones. -/
theorem process_pdf_ok {env : Env} {r : Results} (h : process_pdf env = .ok r) :
    ∃ md ps imgs, env.fitz_open = .ok md ∧ env.pdfplumber_open = .ok ps ∧
      env.convert_from_path = .ok imgs ∧
      r = { metadata := md, text := collectTexts 0 ps,
            tables := collectTables 0 ps, images := imgs,
            ocr_text := collectOcr env 0 imgs } := by
  cases hfz : env.fitz_open with
  | error e => simp only [process_pdf, hfz] at h; cases h
  | ok md =>
    cases hps : env.pdfplumber_open with
    | error e => simp only [process_pdf, hfz, hps] at h; cases h
    | ok ps =>
      cases hpp : processPages 0 ps with
      | error e => simp only [process_pdf, hfz, hps, hpp] at h; cases h
      | ok y =>
        obtain ⟨ts, tbs⟩ := y
        cases hcv : env.convert_from_path with
        | error e => simp only [process_pdf, hfz, hps, hpp, hcv] at h; cases h
        | ok imgs =>
          cases him : processImages env 0 imgs with
          | error e => simp only [process_pdf, hfz, hps, hpp, hcv, him] at h; cases h
          | ok z =>
            obtain ⟨ocr, imgs2⟩ := z
            simp only [process_pdf, hfz, hps, hpp, hcv, him] at h
            have h1 := processPages_ok hpp
            injection h1 with h1t h1b
            have h2 := processImages_ok him
            injection h2 with h2o h2i
            injection h with h
            subst h1t
            subst h1b
            subst h2o
            subst imgs2
            exact ⟨md, ps, imgs, rfl, rfl, rfl, h.symm⟩

/-- C1 counterexample: the claim says every page of an openable document
contributes exactly one Text Block, possibly empty, and that one page
failure never prevents blocks for later pages. In envC1a the document has
exactly one page, its extracted text is the empty string, the run succeeds,
and the text stream is empty (zero blocks, not one). In envC1b the first
page raises during text extraction and the run aborts with that error, so
no block is recorded for the later page either. -/
theorem c1_counterexample :
    envC1a.pdfplumber_open = .ok [pageEmptyText] ∧
    process_pdf envC1a =
      .ok { metadata := [], text := [], tables := [], images := [], ocr_text := [] } ∧
    process_pdf envC1b = .error "text boom" :=
  ⟨rfl, rfl, rfl⟩

/-- C1 (amended): in a successful run the text stream consists of the
formatted texts of exactly those pages whose extract_text call returned
non-empty text, in page order; and a text-extraction failure on one page
aborts the whole run instead of being isolated. -/
theorem c1_text_stream_amended :
    (∀ (env : Env) (ps : List PlumberPage) (r : Results),
      env.pdfplumber_open = .ok ps → process_pdf env = .ok r →
      r.text = collectTexts 0 ps)
    ∧ (∀ (env : Env) (md : List (String × String)) (ps₁ : List PlumberPage)
        (p : PlumberPage) (ps₂ : List PlumberPage) (e : String)
        (x : List String × List TableEntry),
        env.fitz_open = .ok md →
        env.pdfplumber_open = .ok (ps₁ ++ p :: ps₂) →
        processPages 0 ps₁ = .ok x → p.extract_text = .error e →
        process_pdf env = .error e) := by
  constructor
  · intro env ps r hps hr
    obtain ⟨md, ps2, imgs, hfz2, hps2, hcv2, hre⟩ := process_pdf_ok hr
    rw [hps] at hps2
    injection hps2 with h2
    subst h2
    subst hre
    rfl
  · intro env md ps₁ p ps₂ e x hfz hps hx hpt
    have h : processPages 0 (ps₁ ++ p :: ps₂) = Except.error e :=
      processPages_append_err_text hx hpt
    simp only [process_pdf, hfz, hps, h]

/-- C1 witness: the amended theorem applied to the concrete environments. -/
theorem c1_witness :
    ({ metadata := [], text := [], tables := [], images := [],
       ocr_text := [] } : Results).text = collectTexts 0 [pageEmptyText]
    ∧ process_pdf envC1b = .error "text boom" :=
  ⟨c1_text_stream_amended.1 envC1a [pageEmptyText] _ rfl rfl,
   c1_text_stream_amended.2 envC1b [] [] pageTextErr [pageHi] "text boom"
     ([], []) rfl rfl rfl rfl⟩

/-- C2 counterexample: the claim says short source rows are padded with
empty strings. On a ragged grid with header width 2 and a short data row,
the stored first data row has a null cell (pandas NaN, modelled none) in
the padded position, which differs from the empty-string padding the claim
describes. -/
theorem c2_counterexample :
    process_pdf envC2 =
      .ok { metadata := [], text := [],
            tables := [{ page := 1, table_num := 1,
                         header := [some "h1", some "h2"],
                         rows := [[some "a", none], [some "b", some "c"]] }],
            images := [], ocr_text := [] }
    ∧ specPadEmpty [some "a"] 2 = [some "a", some ""]
    ∧ [some "a", (none : Cell)] ≠ specPadEmpty [some "a"] 2 :=
  ⟨rfl, rfl, by decide⟩

/-- C2 (amended): in a successful run every stored data row of every table
has exactly the header length, short source rows having been padded with
null cells; and a page on which zero tables were detected contributes no
table entry. -/
theorem c2_row_lengths_amended :
    (∀ (env : Env) (r : Results), process_pdf env = .ok r →
      ∀ te ∈ r.tables, ∀ row ∈ te.rows, row.length = te.header.length)
    ∧ (∀ (env : Env) (ps : List PlumberPage) (r : Results) (i : Nat) (p : PlumberPage),
        env.pdfplumber_open = .ok ps → process_pdf env = .ok r →
        ps.get? i = some p → p.extract_tables = .ok [] →
        ∀ te ∈ r.tables, te.page ≠ i + 1) := by
  constructor
  · intro env r hr te hte row hrow
    obtain ⟨md, ps, imgs, hfz, hps, hcv, hre⟩ := process_pdf_ok hr
    subst hre
    obtain ⟨j, hj, hpage, gs, l, hgs, hbt, hmem⟩ := collectTables_mem hte
    exact (buildTables_mem hbt te hmem).2 row hrow
  · intro env ps r i p hps hr hget hempty te hte hpagei
    obtain ⟨md, ps2, imgs, hfz2, hps2, hcv2, hre⟩ := process_pdf_ok hr
    rw [hps] at hps2
    injection hps2 with h2
    subst h2
    subst hre
    obtain ⟨j, hj, hpage, gs, l, hgs, hbt, hmem⟩ := collectTables_mem hte
    have hji : j = i := by omega
    subst hji
    obtain ⟨hlt, hgetj⟩ := List.get?_eq_some.mp hget
    have : (ps.get ⟨j, hj⟩) = p := by
      rw [← hgetj]
    rw [this] at hgs
    rw [hempty] at hgs
    injection hgs with hgs
    subst hgs
    simp only [buildTables] at hbt
    injection hbt with hbt
    subst hbt
    cases hmem

/-- C2 witness: the amended theorem applied to the concrete environments. -/
theorem c2_witness :
    ([some "a", (none : Cell)].length = [some "h1", some "h2"].length)
    ∧ ({ page := 1, table_num := 1, header := [some "h1", some "h2"],
         rows := [[some "a", none], [some "b", some "c"]] } : TableEntry).page ≠ 1 + 1 :=
  ⟨c2_row_lengths_amended.1 envC2
     { metadata := [], text := [],
       tables := [{ page := 1, table_num := 1, header := [some "h1", some "h2"],
                    rows := [[some "a", none], [some "b", some "c"]] }],
       images := [], ocr_text := [] } (by decide)
     { page := 1, table_num := 1, header := [some "h1", some "h2"],
       rows := [[some "a", none], [some "b", some "c"]] } (by decide)
     [some "a", none] (by decide),
   c2_row_lengths_amended.2 envC2W [pagePadTable, pageEmptyText]
     { metadata := [], text := [],
       tables := [{ page := 1, table_num := 1, header := [some "h1", some "h2"],
                    rows := [[some "a", none], [some "b", some "c"]] }],
       images := [], ocr_text := [] } 1 pageEmptyText
     rfl (by decide) rfl rfl
     { page := 1, table_num := 1, header := [some "h1", some "h2"],
       rows := [[some "a", none], [some "b", some "c"]] } (by decide)⟩

/-- C3 counterexample: the claim says a failing table-detection call is
caught at the page boundary and the run continues with the other streams
populated. In envC3 the second page raises during table detection; the run
aborts with that error and produces no result at all. -/
theorem c3_counterexample :
    process_pdf envC3 = .error "detect boom" := rfl

/-- C3 (amended): when the table-detection call of a page raises and the
run reaches that page, the exception propagates: process_pdf fails with
that error and no result streams are produced. -/
theorem c3_detection_error_aborts (env : Env) (md : List (String × String))
    (ps₁ : List PlumberPage) (p : PlumberPage) (ps₂ : List PlumberPage)
    (t e : String) (x : List String × List TableEntry)
    (hfz : env.fitz_open = .ok md)
    (hps : env.pdfplumber_open = .ok (ps₁ ++ p :: ps₂))
    (hx : processPages 0 ps₁ = .ok x)
    (hpt : p.extract_text = .ok t)
    (hpe : p.extract_tables = .error e) :
    process_pdf env = .error e := by
  have h : processPages 0 (ps₁ ++ p :: ps₂) = Except.error e :=
    processPages_append_err_tables hx hpt hpe
  simp only [process_pdf, hfz, hps, h]

/-- C3 witness: the amended theorem applied to the concrete environment. -/
theorem c3_witness : process_pdf envC3 = .error "detect boom" :=
  c3_detection_error_aborts envC3 [] [pageHi] pageTablesErr [] "b" "detect boom"
    ([formatText 0 "hi"], []) rfl rfl rfl rfl rfl

/-- C4 counterexample: the claim says that with no OCR capability the run
still completes and the ocr_text stream is present but empty. In envC4 the
OCR engine call raises (engine unavailable); the run aborts with that error
and produces no result at all. -/
theorem c4_counterexample :
    process_pdf envC4 = .error "TesseractNotFoundError" := rfl

/-- C4 (amended): process_pdf invokes the OCR engine unconditionally on
every page image; there is no capability detection and no embedded-OCR
fallback, so when the OCR call on an image raises, the run fails with that
error instead of completing with an empty ocr_text stream. -/
theorem c4_ocr_error_aborts (env : Env) (md : List (String × String))
    (ps : List PlumberPage) (x : List String × List TableEntry)
    (imgs₁ : List Nat) (img : Nat) (imgs₂ : List Nat) (e : String)
    (y : List String × List Nat)
    (hfz : env.fitz_open = .ok md)
    (hps : env.pdfplumber_open = .ok ps)
    (hx : processPages 0 ps = .ok x)
    (hcv : env.convert_from_path = .ok (imgs₁ ++ img :: imgs₂))
    (hy : processImages env 0 imgs₁ = .ok y)
    (hsv : env.save img = .ok ())
    (ho : env.image_to_string img = .error e) :
    process_pdf env = .error e := by
  obtain ⟨ts, tbs⟩ := x
  have h : processImages env 0 (imgs₁ ++ img :: imgs₂) = Except.error e :=
    processImages_append_err hy hsv ho
  simp only [process_pdf, hfz, hps, hx, hcv, h]

/-- C4 witness: the amended theorem applied to the concrete environment. -/
theorem c4_witness : process_pdf envC4 = .error "TesseractNotFoundError" :=
  c4_ocr_error_aborts envC4 [] [pageHi] ([formatText 0 "hi"], []) [] 0 []
    "TesseractNotFoundError" ([], []) rfl rfl rfl rfl rfl rfl rfl

/-- C5 counterexample: the claim says that when the batch rendering call of
the rasterizer fails, every image is instead produced through a baseline
pixmap fallback and the run completes. In envC5 convert_from_path raises;
the run aborts with that error and produces no result at all: the code has
no fallback rendering path. -/
theorem c5_counterexample :
    process_pdf envC5 = .error "PDFInfoNotInstalledError" := rfl

/-- C5 (amended): when the batch page-rendering call convert_from_path
raises and the run reaches it, the exception propagates: process_pdf fails
with that error; there is no per-page baseline pixmap fallback. -/
theorem c5_batch_render_error_aborts (env : Env) (md : List (String × String))
    (ps : List PlumberPage) (x : List String × List TableEntry) (e : String)
    (hfz : env.fitz_open = .ok md)
    (hps : env.pdfplumber_open = .ok ps)
    (hx : processPages 0 ps = .ok x)
    (hcv : env.convert_from_path = .error e) :
    process_pdf env = .error e := by
  obtain ⟨ts, tbs⟩ := x
  simp only [process_pdf, hfz, hps, hx, hcv]

/-- C5 witness: the amended theorem applied to the concrete environment. -/
theorem c5_witness : process_pdf envC5 = .error "PDFInfoNotInstalledError" :=
  c5_batch_render_error_aborts envC5 [] [pageHi] ([formatText 0 "hi"], [])
    "PDFInfoNotInstalledError" rfl rfl rfl rfl

/-- C6 counterexample: the claim says that with OCR available one OCR text
is recorded per rendered image even when the recognized text is empty. In
envC6 the single image OCRs to the empty string; the run succeeds with one
image in the images stream and zero entries in the ocr_text stream. -/
theorem c6_counterexample :
    process_pdf envC6 =
      .ok { metadata := [], text := [formatText 0 "hi"], tables := [],
            images := [0], ocr_text := [] }
    ∧ ¬ (([] : List String).length = [0].length) :=
  ⟨by decide, by decide⟩

/-- C6 (amended): in a successful run the images stream contains exactly
the rendered images, and an OCR entry is recorded for an image exactly when
its recognized text is non-blank after stripping, in image order; hence
OCR text is only ever produced from an existing rendered image and there
are never more OCR entries than images. -/
theorem c6_ocr_stream_amended (env : Env) (imgs : List Nat) (r : Results)
    (hcv : env.convert_from_path = .ok imgs) (hr : process_pdf env = .ok r) :
    r.images = imgs ∧ r.ocr_text = collectOcr env 0 imgs ∧
      r.ocr_text.length ≤ r.images.length := by
  obtain ⟨md, ps, imgs2, hfz2, hps2, hcv2, hre⟩ := process_pdf_ok hr
  rw [hcv] at hcv2
  injection hcv2 with h2
  subst h2
  subst hre
  exact ⟨rfl, rfl, collectOcr_length_le⟩

/-- C6 witness: the amended theorem applied to the concrete environment. -/
theorem c6_witness :
    ({ metadata := [], text := [formatText 0 "hi"], tables := [],
       images := [0], ocr_text := [] } : Results).images = [0]
    ∧ ({ metadata := [], text := [formatText 0 "hi"], tables := [],
         images := [0], ocr_text := [] } : Results).ocr_text = collectOcr envC6 0 [0]
    ∧ ({ metadata := [], text := [formatText 0 "hi"], tables := [],
         images := [0], ocr_text := [] } : Results).ocr_text.length ≤
        ({ metadata := [], text := [formatText 0 "hi"], tables := [],
           images := [0], ocr_text := [] } : Results).images.length :=
  c6_ocr_stream_amended envC6 [0] _ rfl (by decide)

/-- C7: when the document cannot be opened, the fitz open call raises and
process_pdf surfaces exactly that error to the caller; no result record,
hence no stream, is ever produced. -/
theorem c7_open_error (env : Env) (e : String) (h : env.fitz_open = .error e) :
    process_pdf env = .error e ∧ ∀ r : Results, process_pdf env ≠ .ok r := by
  have h1 : process_pdf env = .error e := by simp only [process_pdf, h]
  exact ⟨h1, fun r hr => by rw [h1] at hr; cases hr⟩

/-- C7 witness: the theorem applied to the concrete environment. -/
theorem c7_witness : process_pdf envC7 = .error "cannot open broken document" :=
  (c7_open_error envC7 "cannot open broken document" rfl).1

/-- C8: on a successful run in which every detected grid is rectangular,
the tables stream consists, page by page in detection order, of entries
whose header is the first row of the detected grid, whose data rows are the
remaining rows, tagged with the 1-based page number and a 1-based table
index that restarts at 1 on every page. -/
theorem c8_table_structure (env : Env) (ps : List PlumberPage) (r : Results)
    (hps : env.pdfplumber_open = .ok ps) (hr : process_pdf env = .ok r)
    (hrect : ∀ p ∈ ps, ∀ gs, p.extract_tables = .ok gs → ∀ g ∈ gs, gridRect g = true) :
    r.tables = collectTablesRect 0 ps := by
  obtain ⟨md, ps2, imgs, hfz2, hps2, hcv2, hre⟩ := process_pdf_ok hr
  rw [hps] at hps2
  injection hps2 with h2
  subst h2
  subst hre
  exact collectTables_eq_rect hrect

/-- C8 witness: the theorem applied to a concrete environment with two
rectangular grids on one page. -/
theorem c8_witness :
    ({ metadata := [], text := [formatText 0 "hi"],
       tables := [{ page := 1, table_num := 1, header := [some "h1", some "h2"],
                    rows := [[some "a", none], [some "b", some "c"]] },
                  { page := 1, table_num := 2, header := [some "x"],
                    rows := [[some "y"]] }],
       images := [0], ocr_text := [formatOcr 0 "ocr"] } : Results).tables
      = collectTablesRect 0 [pageRect] := by
  refine c8_table_structure envC8 [pageRect] _ rfl (by decide) ?_
  intro p hp gs hgs g hg
  have hp2 : p = pageRect := by simpa using hp
  subst hp2
  have hgs2 : ([gridOne, gridTwo] : List Grid) = gs := by
    injection hgs
  subst hgs2
  revert g hg
  decide

/-- C9: process_pdf is a pure function of the document and provider
behaviour: two runs with identical inputs and identical provider behaviour
produce identical results, in particular identical metadata, identical
table grids, and byte-for-byte identical text and OCR streams. -/
theorem c9_deterministic (env₁ env₂ : Env) (h : env₁ = env₂) :
    process_pdf env₁ = process_pdf env₂ := by rw [h]

/-- C9 witness: the theorem applied to a concrete environment. -/
theorem c9_witness : process_pdf envC8 = process_pdf envC8 :=
  c9_deterministic envC8 envC8 rfl

end Notebook

namespace GroqIntegration

/-- C10: on every object built by the constructor, before any successful
create_index call (that is, after any sequence of failed attempts), the
index field is still None and query raises ValueError instead of
dereferencing a missing index. -/
theorem c10_query_before_index (apiKey : Option String) (s : GroqPDFQuery)
    (hinit : init apiKey = .ok s) (attempts : List (Except String Nat))
    (hfail : ∀ a ∈ attempts, ∃ e, a = .error e)
    (engine : Nat → String → Except String String) (question : String) :
    query (runCreates s attempts) engine question =
      .error "Index not created. Call create_index() first." := by
  have hs : s.index = none := by
    cases apiKey with
    | none => simp only [init] at hinit; cases hinit
    | some k =>
      by_cases hk : k.isEmpty
      · simp only [init, hk, if_true] at hinit
        cases hinit
      · simp only [init, hk, if_false] at hinit
        injection hinit with hinit
        rw [← hinit]
  have hrun : ∀ (l : List (Except String Nat)), (∀ a ∈ l, ∃ e, a = .error e) →
      ∀ st : GroqPDFQuery, runCreates st l = st := by
    intro l
    induction l with
    | nil => intro _ st; rfl
    | cons a l ih =>
      intro hf st
      obtain ⟨e, rfl⟩ := hf a (List.mem_cons_self _ _)
      show runCreates st l = st
      exact ih (fun b hb => hf b (List.mem_cons_of_mem _ hb)) st
  rw [hrun attempts hfail s]
  simp only [query, hs]

/-- C10 witness: the theorem applied to a concrete constructor call, one
failed create_index attempt and a concrete engine. -/
theorem c10_witness :
    query (runCreates { index := none } [Except.error "load fail"])
        (fun _ _ => .ok "answer") "what is this pdf about" =
      .error "Index not created. Call create_index() first." :=
  c10_query_before_index (some "gsk-key") { index := none } rfl
    [Except.error "load fail"]
    (by
      intro a ha
      rw [List.mem_singleton] at ha
      exact ⟨"load fail", ha⟩)
    (fun _ _ => .ok "answer") "what is this pdf about"

end GroqIntegration

